import Mathlib

/-!
Verification of the metadata read/modify subsystem of the assignment-checker
service (src/main.py). The endpoints get_file_metadata and modify_file_metadata
are embedded as pure Lean functions over a content-level model of office
document containers. The container libraries (python-docx, python-pptx,
openpyxl) are external collaborators; they are modelled from the spec contract
in sections 4.2, 4.3 and 6 of the specification: decoding bytes of the right
kind yields the in-memory document, re-encoding preserves all content other
than the fields explicitly written. Everything else — extension dispatch via
os.path.splitext, the field mapping per kind, the None-vs-value write policy,
the try/except wrapping — is translated directly from the source.
-/

namespace AssignmentChecker

/-- Index of the last occurrence of a character in a list, if any. This mirrors
the Python str.rfind primitive used by the splitext implementation, restricted
to a single-character needle. -/
def rfindChar (c : Char) : List Char → Option Nat
  | [] => none
  | a :: as =>
    match rfindChar c as with
    | some i => some (i + 1)
    | none => if a = c then some 0 else none

/-- Python os.path on Linux is posixpath; genericpath._splitext with sep "/",
no altsep and extsep ".". The extension begins at the last dot, provided the
portion of the basename before that dot is not made of dots only — so a bare
leading-dot name such as ".docx" has no extension at all. -/
def splitextList (p : List Char) : List Char × List Char :=
  match rfindChar '.' p with
  | none => (p, [])
  | some dotIdx =>
    let sepSucc : Nat :=
      match rfindChar '/' p with
      | some i => i + 1
      | none => 0
    if sepSucc ≤ dotIdx then
      if ((p.take dotIdx).drop sepSucc).all (fun a => a = '.') then (p, [])
      else (p.take dotIdx, p.drop dotIdx)
    else (p, [])

/-- String-level wrapper for os.path.splitext. -/
def splitext (p : String) : String × String :=
  (String.mk (splitextList p.toList).1, String.mk (splitextList p.toList).2)

/-- Modelled from the spec: a decoded word-processing (docx) container is its
two core identity properties — author and last-modified-by, each possibly
unset — together with its non-identity content, here the paragraph texts. -/
structure WordDoc where
  author : Option String
  last_modified_by : Option String
  paragraphs : List String
  deriving DecidableEq, Repr

/-- Modelled from the spec: a decoded presentation (pptx) container, with the
slide texts as its non-identity content. -/
structure PresDoc where
  author : Option String
  last_modified_by : Option String
  slideTexts : List String
  deriving DecidableEq, Repr

/-- Modelled from the spec: a decoded spreadsheet (xlsx) workbook. Its identity
properties are named creator and lastModifiedBy — the openpyxl workbook
properties object has no field named author; the cell values are its
non-identity content. -/
structure SheetDoc where
  creator : Option String
  lastModifiedBy : Option String
  cellValues : List String
  deriving DecidableEq, Repr

/-- Modelled from the spec: the byte buffers the service receives or produces.
Valid container bytes determine the document they decode to; any other byte
sequence is garbage carrying the message the decode library reports on it. -/
inductive FileBytes
  | wordBytes (d : WordDoc)
  | presBytes (d : PresDoc)
  | sheetBytes (d : SheetDoc)
  | garbage (raw : List Nat) (errMsg : String)
  deriving DecidableEq, Repr

/-- Modelled from the spec: docx.Document on an in-memory stream either yields
the decoded document (for valid word-processing bytes) or raises, reporting the
message of the underlying library; bytes of another container kind are not a
valid word-processing container. -/
def docxDocument : FileBytes → Except String WordDoc
  | .wordBytes d => .ok d
  | .garbage _ e => .error e
  | _ => .error "Package not found or unsupported content type"

/-- Modelled from the spec: pptx.Presentation on an in-memory stream. -/
def pptxPresentation : FileBytes → Except String PresDoc
  | .presBytes d => .ok d
  | .garbage _ e => .error e
  | _ => .error "Package not found or unsupported content type"

/-- Modelled from the spec: openpyxl.load_workbook on an in-memory stream. -/
def openpyxlLoadWorkbook : FileBytes → Except String SheetDoc
  | .sheetBytes d => .ok d
  | .garbage _ e => .error e
  | _ => .error "File is not a zip file or not a workbook"

/-- A Python exception as it reaches the blanket except-Exception handler of an
endpoint: either a fastapi HTTPException raised inside the try block, or an
error raised by a decode library. -/
inductive PyExc
  | http (status_code : Nat) (detail : String)
  | libError (message : String)
  deriving DecidableEq, Repr

/-- Modelled from the spec: str(e). For a starlette HTTPException this renders
as "status_code: detail"; for a library error it is the message itself. -/
def PyExc.str : PyExc → String
  | .http s d => toString s ++ ": " ++ d
  | .libError m => m

/-- The error surface of an endpoint: the HTTPException the caller receives. -/
structure HTTPError where
  status_code : Nat
  detail : String
  deriving DecidableEq, Repr

/-- A status code in the 4xx range is a client error. -/
def isClientError (e : HTTPError) : Prop :=
  400 ≤ e.status_code ∧ e.status_code < 500

instance (e : HTTPError) : Decidable (isClientError e) :=
  inferInstanceAs (Decidable (_ ∧ _))

/-- The JSON body returned by get_file_metadata on success (src/main.py line
158): the two normalised identity fields. -/
structure Metadata where
  author : String
  last_modified_by : String
  deriving DecidableEq, Repr

/-- Python x or "" applied to an optional property value: None is normalised to
the empty string (and an empty string stays empty). -/
def orEmpty : Option String → String
  | none => ""
  | some s => s

/-- Body of the try block of get_file_metadata (src/main.py lines 160-179):
dispatch on the extension, decode with the library for that kind, read the two
identity properties — author for docx and pptx, creator for xlsx — normalising
a missing value to the empty string; for any other extension raise
HTTPException(400, "Unsupported file type."). -/
def getMetadataTry (file_extension : String) (file_stream : FileBytes) :
    Except PyExc Metadata :=
  if file_extension = ".docx" then
    match docxDocument file_stream with
    | .error e => .error (.libError e)
    | .ok doc => .ok ⟨orEmpty doc.author, orEmpty doc.last_modified_by⟩
  else if file_extension = ".pptx" then
    match pptxPresentation file_stream with
    | .error e => .error (.libError e)
    | .ok prs => .ok ⟨orEmpty prs.author, orEmpty prs.last_modified_by⟩
  else if file_extension = ".xlsx" then
    match openpyxlLoadWorkbook file_stream with
    | .error e => .error (.libError e)
    | .ok wb => .ok ⟨orEmpty wb.creator, orEmpty wb.lastModifiedBy⟩
  else
    .error (.http 400 "Unsupported file type.")

/-- Endpoint get_file_metadata (src/main.py lines 149-184). The extension is
os.path.splitext(filename)[1]. The except-Exception handler catches every
failure of the try block — including the 400 HTTPException raised there for an
unsupported extension, since HTTPException is an Exception subclass — and
re-raises HTTPException(500, "Failed to read metadata: " + str(e)). -/
def get_file_metadata (filename : String) (file_content : FileBytes) :
    Except HTTPError Metadata :=
  match getMetadataTry (splitext filename).2 file_content with
  | .ok m => .ok m
  | .error e => .error ⟨500, "Failed to read metadata: " ++ e.str⟩

/-- The in-memory doc_obj of modify_file_metadata: one of the three library
document objects. -/
inductive DocObj
  | word (d : WordDoc)
  | pres (d : PresDoc)
  | sheet (d : SheetDoc)
  deriving DecidableEq, Repr

/-- Decode dispatch of modify_file_metadata (src/main.py lines 208-221): same
extension dispatch as the read endpoint, with a longer 400 detail for an
unsupported extension. -/
def modifyDecode (file_extension : String) (file_stream : FileBytes) :
    Except PyExc DocObj :=
  if file_extension = ".docx" then
    match docxDocument file_stream with
    | .error e => .error (.libError e)
    | .ok d => .ok (.word d)
  else if file_extension = ".pptx" then
    match pptxPresentation file_stream with
    | .error e => .error (.libError e)
    | .ok d => .ok (.pres d)
  else if file_extension = ".xlsx" then
    match openpyxlLoadWorkbook file_stream with
    | .error e => .error (.libError e)
    | .ok d => .ok (.sheet d)
  else
    .error (.http 400
      "Unsupported file type. Please upload a .docx, .pptx, or .xlsx file.")

/-- Lines 223-227 of src/main.py: if author is not None, write it — to the
creator property when the extension is .xlsx, to the author property
otherwise. The arms where the object kind does not match the extension are
unreachable, because the decode dispatch ties the two together. -/
def applyAuthor (file_extension : String) (obj : DocObj) (author : Option String) :
    DocObj :=
  match author with
  | none => obj
  | some a =>
    if file_extension = ".xlsx" then
      match obj with
      | .sheet d => .sheet { d with creator := some a }
      | o => o
    else
      match obj with
      | .word d => .word { d with author := some a }
      | .pres d => .pres { d with author := some a }
      | o => o

/-- Lines 229-233 of src/main.py: the same policy for last_modified_by, written
to lastModifiedBy for .xlsx and to last_modified_by otherwise. -/
def applyLastModifiedBy (file_extension : String) (obj : DocObj)
    (last_modified_by : Option String) : DocObj :=
  match last_modified_by with
  | none => obj
  | some l =>
    if file_extension = ".xlsx" then
      match obj with
      | .sheet d => .sheet { d with lastModifiedBy := some l }
      | o => o
    else
      match obj with
      | .word d => .word { d with last_modified_by := some l }
      | .pres d => .pres { d with last_modified_by := some l }
      | o => o

/-- Modelled from the spec: doc_obj.save(output_stream) re-encodes the
in-memory document to bytes, preserving every part of the document other than
the fields explicitly written — the central codec-adapter invariant of the
spec (section 3). -/
def save : DocObj → FileBytes
  | .word d => .wordBytes d
  | .pres d => .presBytes d
  | .sheet d => .sheetBytes d

/-- Endpoint modify_file_metadata (src/main.py lines 192-246): decode by
extension, apply the two optional writes, re-encode. Every failure of the try
block — decode errors and the 400 HTTPException for an unsupported extension
alike — is caught by the except-Exception handler and re-raised as
HTTPException(500, "Failed to process file: " + str(e)). -/
def modify_file_metadata (filename : String) (file_content : FileBytes)
    (author last_modified_by : Option String) : Except HTTPError FileBytes :=
  match modifyDecode (splitext filename).2 file_content with
  | .error e => .error ⟨500, "Failed to process file: " ++ e.str⟩
  | .ok obj =>
    .ok (save (applyLastModifiedBy (splitext filename).2
      (applyAuthor (splitext filename).2 obj author) last_modified_by))

/-- The extension a byte buffer would need on its filename for the decode
dispatch to hand it to the library that can decode it; garbage matches none. -/
def kindExtension : FileBytes → Option String
  | .wordBytes _ => some ".docx"
  | .presBytes _ => some ".pptx"
  | .sheetBytes _ => some ".xlsx"
  | .garbage _ _ => none

deriving instance DecidableEq for Except

/-- An uploaded file as extract_text_from_file sees it: file.filename (possibly
None) and the outcome of each library decode on its bytes. pdfPages holds, for
a readable PDF, the extract_text() result of each page (None for a page with
no text layer); an error value stands for any exception of the PDF path.
docxParagraphs holds, for a readable word-processing file, the paragraph
texts, or the exception of that path. utf8Lossy models
content.decode("utf-8", errors="ignore"), which is total and never raises. -/
structure UploadFile where
  filename : Option String
  pdfPages : Except String (List (Option String))
  docxParagraphs : Except String (List String)
  utf8Lossy : String
  deriving DecidableEq, Repr

/-- Python str.endswith: the needle is a suffix of the string. -/
def endswith (s suffix : String) : Bool :=
  suffix.toList.isSuffixOf s.toList

/-- The placeholder text returned when a file cannot be read (src/main.py line
138). -/
def errorPlaceholder (filename : String) : String :=
  "[Error: Could not read content from file " ++ "\x27" ++ filename ++
    "\x27]\n"

/-- Helper extract_text_from_file (src/main.py lines 119-140): dispatch on the
filename suffix with str.endswith — PDF first, then docx, else the lossy utf-8
decode — accumulating page texts with text += page.extract_text() or "" for
PDF and joining paragraph texts with a newline for docx. Any exception inside
the try block yields the placeholder string instead of propagating. -/
def extract_text_from_file (file : UploadFile) : String :=
  if endswith (orEmpty file.filename) ".pdf" then
    match file.pdfPages with
    | .error _ => errorPlaceholder (orEmpty file.filename)
    | .ok pages => pages.foldl (fun text p => text ++ orEmpty p) ""
  else if endswith (orEmpty file.filename) ".docx" then
    match file.docxParagraphs with
    | .error _ => errorPlaceholder (orEmpty file.filename)
    | .ok paras => String.intercalate "\n" paras
  else
    file.utf8Lossy

/-- The extension-extraction rule exactly as the spec words it — the text
after the last dot of the filename, together with that dot — stated for
comparison against the os.path.splitext rule the code uses. -/
def claimedExtension (filename : String) : String :=
  match rfindChar '.' filename.toList with
  | none => ""
  | some i => String.mk (filename.toList.drop i)

/-- The value an optional property holds after the write policy of lines
223-233: a supplied value (including the empty string) replaces the old one, an
absent value leaves it untouched. -/
def setOpt (a old : Option String) : Option String :=
  match a with
  | none => old
  | some x => some x

/-- Reading a word-processing file under a matching filename succeeds with the
normalised author and last-modified-by properties. -/
theorem get_word (fn : String) (d : WordDoc) (hx : (splitext fn).2 = ".docx") :
    get_file_metadata fn (.wordBytes d) =
      .ok ⟨orEmpty d.author, orEmpty d.last_modified_by⟩ := by
  simp [get_file_metadata, getMetadataTry, docxDocument, hx]

/-- Reading a presentation file under a matching filename. -/
theorem get_pres (fn : String) (d : PresDoc) (hx : (splitext fn).2 = ".pptx") :
    get_file_metadata fn (.presBytes d) =
      .ok ⟨orEmpty d.author, orEmpty d.last_modified_by⟩ := by
  simp [get_file_metadata, getMetadataTry, pptxPresentation, hx]

/-- Reading a spreadsheet file under a matching filename: the normalised author
field comes from the creator property of the workbook. -/
theorem get_sheet (fn : String) (d : SheetDoc) (hx : (splitext fn).2 = ".xlsx") :
    get_file_metadata fn (.sheetBytes d) =
      .ok ⟨orEmpty d.creator, orEmpty d.lastModifiedBy⟩ := by
  simp [get_file_metadata, getMetadataTry, openpyxlLoadWorkbook, hx]

/-- Updating a word-processing file: each supplied field is written to the
corresponding property, each absent field leaves the old value, and the
paragraph content is carried through the re-encode untouched. -/
theorem modify_word (fn : String) (d : WordDoc) (a l : Option String)
    (hx : (splitext fn).2 = ".docx") :
    modify_file_metadata fn (.wordBytes d) a l =
      .ok (.wordBytes
        ⟨setOpt a d.author, setOpt l d.last_modified_by, d.paragraphs⟩) := by
  cases a <;> cases l <;>
    simp [modify_file_metadata, modifyDecode, docxDocument, applyAuthor,
      applyLastModifiedBy, save, setOpt, hx]

/-- Updating a presentation file. -/
theorem modify_pres (fn : String) (d : PresDoc) (a l : Option String)
    (hx : (splitext fn).2 = ".pptx") :
    modify_file_metadata fn (.presBytes d) a l =
      .ok (.presBytes
        ⟨setOpt a d.author, setOpt l d.last_modified_by, d.slideTexts⟩) := by
  cases a <;> cases l <;>
    simp [modify_file_metadata, modifyDecode, pptxPresentation, applyAuthor,
      applyLastModifiedBy, save, setOpt, hx]

/-- Updating a spreadsheet file: the author argument is written to the creator
property and the last_modified_by argument to lastModifiedBy. -/
theorem modify_sheet (fn : String) (d : SheetDoc) (a l : Option String)
    (hx : (splitext fn).2 = ".xlsx") :
    modify_file_metadata fn (.sheetBytes d) a l =
      .ok (.sheetBytes
        ⟨setOpt a d.creator, setOpt l d.lastModifiedBy, d.cellValues⟩) := by
  cases a <;> cases l <;>
    simp [modify_file_metadata, modifyDecode, openpyxlLoadWorkbook, applyAuthor,
      applyLastModifiedBy, save, setOpt, hx]

/-- GetMetadata on a filename whose splitext extension is none of the three
supported ones: the 400 HTTPException raised in the try block is re-raised by
the handler as a 500, independently of the uploaded bytes. -/
theorem get_unsupported (fn : String) (b : FileBytes)
    (hd : (splitext fn).2 ≠ ".docx") (hp : (splitext fn).2 ≠ ".pptx")
    (hx : (splitext fn).2 ≠ ".xlsx") :
    get_file_metadata fn b =
      .error ⟨500, "Failed to read metadata: 400: Unsupported file type."⟩ := by
  simp [get_file_metadata, getMetadataTry, hd, hp, hx, PyExc.str]
  rfl

/-- UpdateMetadata on an unsupported splitext extension, likewise wrapped into
a 500 by the handler. -/
theorem modify_unsupported (fn : String) (b : FileBytes) (a l : Option String)
    (hd : (splitext fn).2 ≠ ".docx") (hp : (splitext fn).2 ≠ ".pptx")
    (hx : (splitext fn).2 ≠ ".xlsx") :
    modify_file_metadata fn b a l =
      .error ⟨500,
        "Failed to process file: 400: Unsupported file type. Please upload a .docx, .pptx, or .xlsx file."⟩ := by
  simp [modify_file_metadata, modifyDecode, hd, hp, hx, PyExc.str]
  rfl

/-- Bytes matching the extension of the filename invert kindExtension on the
word-processing case. -/
theorem ext_of_word (fn : String) (d : WordDoc)
    (h : kindExtension (.wordBytes d) = some (splitext fn).2) :
    (splitext fn).2 = ".docx" := by
  simpa [kindExtension, eq_comm] using h

/-- Extension inversion, presentation case. -/
theorem ext_of_pres (fn : String) (d : PresDoc)
    (h : kindExtension (.presBytes d) = some (splitext fn).2) :
    (splitext fn).2 = ".pptx" := by
  simpa [kindExtension, eq_comm] using h

/-- Extension inversion, spreadsheet case. -/
theorem ext_of_sheet (fn : String) (d : SheetDoc)
    (h : kindExtension (.sheetBytes d) = some (splitext fn).2) :
    (splitext fn).2 = ".xlsx" := by
  simpa [kindExtension, eq_comm] using h

/-- UpdateMetadata with neither field supplied returns the input bytes with
nothing changed (helper shared by several claims). -/
theorem modify_noop (fn : String) (b : FileBytes)
    (h : kindExtension b = some (splitext fn).2) :
    modify_file_metadata fn b none none = .ok b := by
  cases b with
  | wordBytes d => simpa [setOpt] using modify_word fn d none none (ext_of_word fn d h)
  | presBytes d => simpa [setOpt] using modify_pres fn d none none (ext_of_pres fn d h)
  | sheetBytes d => simpa [setOpt] using modify_sheet fn d none none (ext_of_sheet fn d h)
  | garbage raw e => simp [kindExtension] at h

/-- C1: for every valid document of a supported kind, UpdateMetadata with
neither identity field supplied (decode followed immediately by re-encode, no
field writes) returns bytes that re-decode to exactly the original document —
in particular all non-identity content (paragraph texts, slide texts, cell
values) and indeed both identity fields are unchanged. -/
theorem noop_update_preserves_content (fn : String) (b : FileBytes)
    (h : kindExtension b = some (splitext fn).2) :
    modify_file_metadata fn b none none = .ok b :=
  modify_noop fn b h

/-- Witness for C1 at a concrete presentation document. -/
theorem noop_update_preserves_content_witness :
    modify_file_metadata "talk.pptx" (.presBytes ⟨some "A", none, ["s1", "s2"]⟩)
      none none = .ok (.presBytes ⟨some "A", none, ["s1", "s2"]⟩) :=
  noop_update_preserves_content "talk.pptx"
    (.presBytes ⟨some "A", none, ["s1", "s2"]⟩) (by decide)

/-- C2: for every valid document of a supported kind and every pair of strings
X and Y, GetMetadata applied to the output of UpdateMetadata with author X and
lastModifiedBy Y returns exactly author X and lastModifiedBy Y, for all three
container kinds. -/
theorem update_then_get_roundtrip (fn : String) (b : FileBytes) (X Y : String)
    (h : kindExtension b = some (splitext fn).2) :
    ∃ b2, modify_file_metadata fn b (some X) (some Y) = .ok b2 ∧
      get_file_metadata fn b2 = .ok ⟨X, Y⟩ := by
  cases b with
  | wordBytes d =>
    have hx := ext_of_word fn d h
    refine ⟨_, modify_word fn d (some X) (some Y) hx, ?_⟩
    rw [get_word fn _ hx]
    simp [setOpt, orEmpty]
  | presBytes d =>
    have hx := ext_of_pres fn d h
    refine ⟨_, modify_pres fn d (some X) (some Y) hx, ?_⟩
    rw [get_pres fn _ hx]
    simp [setOpt, orEmpty]
  | sheetBytes d =>
    have hx := ext_of_sheet fn d h
    refine ⟨_, modify_sheet fn d (some X) (some Y) hx, ?_⟩
    rw [get_sheet fn _ hx]
    simp [setOpt, orEmpty]
  | garbage raw e => simp [kindExtension] at h

/-- Witness for C2 at a concrete spreadsheet document. -/
theorem update_then_get_roundtrip_witness :
    ∃ b2, modify_file_metadata "grades.xlsx"
        (.sheetBytes ⟨some "A", some "B", ["v1"]⟩) (some "X") (some "Y") =
          .ok b2 ∧
      get_file_metadata "grades.xlsx" b2 = .ok ⟨"X", "Y"⟩ :=
  update_then_get_roundtrip "grades.xlsx" (.sheetBytes ⟨some "A", some "B", ["v1"]⟩)
    "X" "Y" (by decide)

/-- C3 (code bug): for an unsupported extension both endpoints do raise the 400
"Unsupported file type" HTTPException without ever decoding the bytes — the
result is independent of the uploaded bytes — but because that HTTPException is
itself an Exception, the blanket except handler of each endpoint catches it and
re-raises status 500, so the caller sees a server error rather than the client
error the spec describes; the 400 survives only inside the detail text. -/
theorem unsupported_extension_surfaced_as_500 (fn : String)
    (hd : (splitext fn).2 ≠ ".docx") (hp : (splitext fn).2 ≠ ".pptx")
    (hx : (splitext fn).2 ≠ ".xlsx") (b b2 : FileBytes) (a l : Option String) :
    get_file_metadata fn b =
      .error ⟨500, "Failed to read metadata: 400: Unsupported file type."⟩ ∧
    get_file_metadata fn b = get_file_metadata fn b2 ∧
    modify_file_metadata fn b a l =
      .error ⟨500,
        "Failed to process file: 400: Unsupported file type. Please upload a .docx, .pptx, or .xlsx file."⟩ := by
  refine ⟨get_unsupported fn b hd hp hx, ?_, modify_unsupported fn b a l hd hp hx⟩
  rw [get_unsupported fn b hd hp hx, get_unsupported fn b2 hd hp hx]

/-- Witness for C3 at the filename notes.rtf. -/
theorem unsupported_extension_surfaced_as_500_witness :
    get_file_metadata "notes.rtf" (.garbage [1] "g") =
      .error ⟨500, "Failed to read metadata: 400: Unsupported file type."⟩ ∧
    get_file_metadata "notes.rtf" (.garbage [1] "g") =
      get_file_metadata "notes.rtf" (.wordBytes ⟨none, none, ["p"]⟩) ∧
    modify_file_metadata "notes.rtf" (.garbage [1] "g") (some "X") none =
      .error ⟨500,
        "Failed to process file: 400: Unsupported file type. Please upload a .docx, .pptx, or .xlsx file."⟩ :=
  unsupported_extension_surfaced_as_500 "notes.rtf" (by decide) (by decide)
    (by decide) (.garbage [1] "g") (.wordBytes ⟨none, none, ["p"]⟩) (some "X") none

/-- C4 counterexample: garbage bytes under the supported filename report.docx
fail with HTTP status 500 — not a client error as the claim states — though the
message does include the message of the decode library. -/
theorem corrupt_docx_surfaces_server_error_cex :
    get_file_metadata "report.docx" (.garbage [82, 97] "File is not a zip file") =
      .error ⟨500, "Failed to read metadata: File is not a zip file"⟩ ∧
    ¬ isClientError ⟨500, "Failed to read metadata: File is not a zip file"⟩ :=
  ⟨rfl, by decide⟩

/-- C4 amended: for a supported extension over undecodable bytes, GetMetadata
fails with an error whose message includes the message of the underlying decode
library, surfaced with HTTP status 500 — a server error, not a client error. -/
theorem corrupt_bytes_error_has_library_message (fn : String) (raw : List Nat)
    (msg : String)
    (h : (splitext fn).2 = ".docx" ∨ (splitext fn).2 = ".pptx" ∨
      (splitext fn).2 = ".xlsx") :
    get_file_metadata fn (.garbage raw msg) =
      .error ⟨500, "Failed to read metadata: " ++ msg⟩ ∧
    ¬ isClientError ⟨500, "Failed to read metadata: " ++ msg⟩ := by
  constructor
  · rcases h with h | h | h <;>
      simp [get_file_metadata, getMetadataTry, docxDocument, pptxPresentation,
        openpyxlLoadWorkbook, PyExc.str, h]
  · simp [isClientError]

/-- Witness for the amended C4 at report.docx over garbage bytes. -/
theorem corrupt_bytes_error_has_library_message_witness :
    get_file_metadata "report.docx" (.garbage [0] "EOF marker not found") =
      .error ⟨500, "Failed to read metadata: " ++ "EOF marker not found"⟩ ∧
    ¬ isClientError ⟨500, "Failed to read metadata: " ++ "EOF marker not found"⟩ :=
  corrupt_bytes_error_has_library_message "report.docx" [0] "EOF marker not found"
    (Or.inl (by decide))

/-- Partial updates leave the unsupplied field untouched (helper shared by the
claims about partial and empty-string updates). -/
theorem partial_update_helper (fn : String) (b : FileBytes)
    (A B C : String) (h : kindExtension b = some (splitext fn).2)
    (hget : get_file_metadata fn b = .ok ⟨A, B⟩) :
    (∃ b2, modify_file_metadata fn b (some C) none = .ok b2 ∧
        get_file_metadata fn b2 = .ok ⟨C, B⟩) ∧
    (∃ b3, modify_file_metadata fn b none (some C) = .ok b3 ∧
        get_file_metadata fn b3 = .ok ⟨A, C⟩) := by
  cases b with
  | wordBytes d =>
    have hx := ext_of_word fn d h
    rw [get_word fn d hx] at hget
    obtain ⟨hA, hB⟩ : orEmpty d.author = A ∧ orEmpty d.last_modified_by = B := by
      simpa using hget
    constructor
    · refine ⟨_, modify_word fn d (some C) none hx, ?_⟩
      rw [get_word fn _ hx]
      simp only [setOpt]
      rw [hB]
      rfl
    · refine ⟨_, modify_word fn d none (some C) hx, ?_⟩
      rw [get_word fn _ hx]
      simp only [setOpt]
      rw [hA]
      rfl
  | presBytes d =>
    have hx := ext_of_pres fn d h
    rw [get_pres fn d hx] at hget
    obtain ⟨hA, hB⟩ : orEmpty d.author = A ∧ orEmpty d.last_modified_by = B := by
      simpa using hget
    constructor
    · refine ⟨_, modify_pres fn d (some C) none hx, ?_⟩
      rw [get_pres fn _ hx]
      simp only [setOpt]
      rw [hB]
      rfl
    · refine ⟨_, modify_pres fn d none (some C) hx, ?_⟩
      rw [get_pres fn _ hx]
      simp only [setOpt]
      rw [hA]
      rfl
  | sheetBytes d =>
    have hx := ext_of_sheet fn d h
    rw [get_sheet fn d hx] at hget
    obtain ⟨hA, hB⟩ : orEmpty d.creator = A ∧ orEmpty d.lastModifiedBy = B := by
      simpa using hget
    constructor
    · refine ⟨_, modify_sheet fn d (some C) none hx, ?_⟩
      rw [get_sheet fn _ hx]
      simp only [setOpt]
      rw [hB]
      rfl
    · refine ⟨_, modify_sheet fn d none (some C) hx, ?_⟩
      rw [get_sheet fn _ hx]
      simp only [setOpt]
      rw [hA]
      rfl
  | garbage raw e => simp [kindExtension] at h

/-- C5: on a document reading back as author A and lastModifiedBy B, supplying
only author C leaves B untouched and yields author C; symmetrically, supplying
only lastModifiedBy C leaves the author field untouched. -/
theorem partial_update_preserves_other_field (fn : String) (b : FileBytes)
    (A B C : String) (h : kindExtension b = some (splitext fn).2)
    (hget : get_file_metadata fn b = .ok ⟨A, B⟩) :
    (∃ b2, modify_file_metadata fn b (some C) none = .ok b2 ∧
        get_file_metadata fn b2 = .ok ⟨C, B⟩) ∧
    (∃ b3, modify_file_metadata fn b none (some C) = .ok b3 ∧
        get_file_metadata fn b3 = .ok ⟨A, C⟩) :=
  partial_update_helper fn b A B C h hget

/-- Witness for C5 at a concrete word document. -/
theorem partial_update_preserves_other_field_witness :
    (∃ b2, modify_file_metadata "essay.docx"
        (.wordBytes ⟨some "A", some "B", ["p"]⟩) (some "C") none = .ok b2 ∧
      get_file_metadata "essay.docx" b2 = .ok ⟨"C", "B"⟩) ∧
    (∃ b3, modify_file_metadata "essay.docx"
        (.wordBytes ⟨some "A", some "B", ["p"]⟩) none (some "C") = .ok b3 ∧
      get_file_metadata "essay.docx" b3 = .ok ⟨"A", "C"⟩) :=
  partial_update_preserves_other_field "essay.docx"
    (.wordBytes ⟨some "A", some "B", ["p"]⟩) "A" "B" "C" (by decide) rfl

/-- C6: supplying author as the empty string is a real update — the document
reads back with an empty author — and differs from supplying nothing, which
returns the bytes unchanged, so the two outcomes disagree whenever the original
author was non-empty. -/
theorem empty_string_author_update_is_real (fn : String) (b : FileBytes)
    (A B : String) (h : kindExtension b = some (splitext fn).2)
    (hget : get_file_metadata fn b = .ok ⟨A, B⟩) :
    (∃ b2, modify_file_metadata fn b (some "") none = .ok b2 ∧
        get_file_metadata fn b2 = .ok ⟨"", B⟩) ∧
    modify_file_metadata fn b none none = .ok b ∧
    (A ≠ "" → (Metadata.mk "" B) ≠ (Metadata.mk A B)) := by
  refine ⟨?_, modify_noop fn b h, ?_⟩
  · exact (partial_update_helper fn b A B "" h hget).1
  · intro hA hEq
    injection hEq with h1 h2
    exact hA h1.symm

/-- Witness for C6 at a concrete spreadsheet document. -/
theorem empty_string_author_update_is_real_witness :
    (∃ b2, modify_file_metadata "grades.xlsx"
        (.sheetBytes ⟨some "A", some "B", ["v"]⟩) (some "") none = .ok b2 ∧
      get_file_metadata "grades.xlsx" b2 = .ok ⟨"", "B"⟩) ∧
    modify_file_metadata "grades.xlsx" (.sheetBytes ⟨some "A", some "B", ["v"]⟩)
      none none = .ok (.sheetBytes ⟨some "A", some "B", ["v"]⟩) ∧
    ("A" ≠ "" → (Metadata.mk "" "B") ≠ (Metadata.mk "A" "B")) :=
  empty_string_author_update_is_real "grades.xlsx"
    (.sheetBytes ⟨some "A", some "B", ["v"]⟩) "A" "B" (by decide) rfl

/-- C7: for a spreadsheet the normalised author field reads from and writes to
the creator property of the workbook — the SheetDoc model has no property
named author at all — while word-processing and presentation containers read
and write the author property; in every case the other properties and the
non-identity content are untouched by an author write. -/
theorem kind_specific_field_mapping (fx fw fp : String) (s : SheetDoc)
    (w : WordDoc) (p : PresDoc) (X : String)
    (hx : (splitext fx).2 = ".xlsx") (hw : (splitext fw).2 = ".docx")
    (hp : (splitext fp).2 = ".pptx") :
    get_file_metadata fx (.sheetBytes s) =
      .ok ⟨orEmpty s.creator, orEmpty s.lastModifiedBy⟩ ∧
    modify_file_metadata fx (.sheetBytes s) (some X) none =
      .ok (.sheetBytes ⟨some X, s.lastModifiedBy, s.cellValues⟩) ∧
    get_file_metadata fw (.wordBytes w) =
      .ok ⟨orEmpty w.author, orEmpty w.last_modified_by⟩ ∧
    modify_file_metadata fw (.wordBytes w) (some X) none =
      .ok (.wordBytes ⟨some X, w.last_modified_by, w.paragraphs⟩) ∧
    get_file_metadata fp (.presBytes p) =
      .ok ⟨orEmpty p.author, orEmpty p.last_modified_by⟩ ∧
    modify_file_metadata fp (.presBytes p) (some X) none =
      .ok (.presBytes ⟨some X, p.last_modified_by, p.slideTexts⟩) := by
  refine ⟨get_sheet fx s hx, ?_, get_word fw w hw, ?_, get_pres fp p hp, ?_⟩
  · simpa [setOpt] using modify_sheet fx s (some X) none hx
  · simpa [setOpt] using modify_word fw w (some X) none hw
  · simpa [setOpt] using modify_pres fp p (some X) none hp

/-- Witness for C7 at concrete documents of the three kinds. -/
theorem kind_specific_field_mapping_witness :
    get_file_metadata "g.xlsx" (.sheetBytes ⟨some "c", some "m", ["v"]⟩) =
      .ok ⟨"c", "m"⟩ ∧
    modify_file_metadata "g.xlsx" (.sheetBytes ⟨some "c", some "m", ["v"]⟩)
      (some "X") none = .ok (.sheetBytes ⟨some "X", some "m", ["v"]⟩) ∧
    get_file_metadata "e.docx" (.wordBytes ⟨some "a", some "m", ["p"]⟩) =
      .ok ⟨"a", "m"⟩ ∧
    modify_file_metadata "e.docx" (.wordBytes ⟨some "a", some "m", ["p"]⟩)
      (some "X") none = .ok (.wordBytes ⟨some "X", some "m", ["p"]⟩) ∧
    get_file_metadata "t.pptx" (.presBytes ⟨some "a", some "m", ["s"]⟩) =
      .ok ⟨"a", "m"⟩ ∧
    modify_file_metadata "t.pptx" (.presBytes ⟨some "a", some "m", ["s"]⟩)
      (some "X") none = .ok (.presBytes ⟨some "X", some "m", ["s"]⟩) :=
  kind_specific_field_mapping "g.xlsx" "e.docx" "t.pptx"
    ⟨some "c", some "m", ["v"]⟩ ⟨some "a", some "m", ["p"]⟩
    ⟨some "a", some "m", ["s"]⟩ "X" (by decide) (by decide) (by decide)

/-- C8 counterexample: by the extraction rule as the claim words it — the text
after the last dot — the bare dotfile name ".docx" carries the extension
".docx" and would be accepted as a word-processing document, but the code
rejects it: os.path.splitext treats it as having no extension, so
get_file_metadata fails with the (500-wrapped) unsupported-file-type error
even on perfectly valid word-processing bytes. -/
theorem extension_rule_text_after_last_dot_cex :
    claimedExtension ".docx" = ".docx" ∧
    get_file_metadata ".docx" (.wordBytes ⟨some "A", some "B", ["hello"]⟩) =
      .error ⟨500, "Failed to read metadata: 400: Unsupported file type."⟩ :=
  ⟨rfl, rfl⟩

/-- C8 amended: detection extracts the extension with os.path.splitext — under
which a name consisting of a leading dot only has no extension — and matches it
case-sensitively against exactly .docx, .pptx and .xlsx, mapping them to the
word-processing, presentation and spreadsheet kinds; every other splitext
extension (including uppercase variants and the absence of an extension) is
rejected by both endpoints with the unsupported-file-type error, independently
of the uploaded bytes. Detection itself is a pure function of the filename. -/
theorem extension_detection_splitext (fn : String) (b : FileBytes)
    (a l : Option String) :
    ((splitext fn).2 = ".docx" → ∀ d : WordDoc,
      get_file_metadata fn (.wordBytes d) =
        .ok ⟨orEmpty d.author, orEmpty d.last_modified_by⟩) ∧
    ((splitext fn).2 = ".pptx" → ∀ d : PresDoc,
      get_file_metadata fn (.presBytes d) =
        .ok ⟨orEmpty d.author, orEmpty d.last_modified_by⟩) ∧
    ((splitext fn).2 = ".xlsx" → ∀ d : SheetDoc,
      get_file_metadata fn (.sheetBytes d) =
        .ok ⟨orEmpty d.creator, orEmpty d.lastModifiedBy⟩) ∧
    ((splitext fn).2 ≠ ".docx" → (splitext fn).2 ≠ ".pptx" →
      (splitext fn).2 ≠ ".xlsx" →
      get_file_metadata fn b =
        .error ⟨500, "Failed to read metadata: 400: Unsupported file type."⟩ ∧
      modify_file_metadata fn b a l =
        .error ⟨500,
          "Failed to process file: 400: Unsupported file type. Please upload a .docx, .pptx, or .xlsx file."⟩) :=
  ⟨fun hx d => get_word fn d hx,
   fun hx d => get_pres fn d hx,
   fun hx d => get_sheet fn d hx,
   fun hd hp hx =>
     ⟨get_unsupported fn b hd hp hx, modify_unsupported fn b a l hd hp hx⟩⟩

/-- Witness for the amended C8: a lowercase .docx filename is read, while the
uppercase variant .DOCX is rejected even over valid word-processing bytes. -/
theorem extension_detection_splitext_witness :
    get_file_metadata "essay.docx" (.wordBytes ⟨some "A", none, []⟩) =
      .ok ⟨"A", ""⟩ ∧
    get_file_metadata "essay.DOCX" (.wordBytes ⟨some "A", none, []⟩) =
      .error ⟨500, "Failed to read metadata: 400: Unsupported file type."⟩ :=
  ⟨(extension_detection_splitext "essay.docx" (.garbage [] "") none none).1
      (by decide) ⟨some "A", none, []⟩,
   ((extension_detection_splitext "essay.DOCX" (.wordBytes ⟨some "A", none, []⟩)
      none none).2.2.2 (by decide) (by decide) (by decide)).1⟩

/-- C9: detection depends only on the splitext extension of the filename —
two filenames with equal splitext extensions are treated identically by both
endpoints — so the bare dotfile name ".docx" is rejected as unsupported, the
double extension "archive.docx.bak" is rejected, and "archive.bak.docx" is
accepted and read as a word-processing document. -/
theorem detection_depends_only_on_splitext (fn fn2 : String) (b : FileBytes)
    (a l : Option String) (d : WordDoc)
    (h : (splitext fn).2 = (splitext fn2).2) :
    (get_file_metadata fn b = get_file_metadata fn2 b ∧
     modify_file_metadata fn b a l = modify_file_metadata fn2 b a l) ∧
    get_file_metadata ".docx" b =
      .error ⟨500, "Failed to read metadata: 400: Unsupported file type."⟩ ∧
    get_file_metadata "archive.docx.bak" b =
      .error ⟨500, "Failed to read metadata: 400: Unsupported file type."⟩ ∧
    get_file_metadata "archive.bak.docx" (.wordBytes d) =
      .ok ⟨orEmpty d.author, orEmpty d.last_modified_by⟩ := by
  refine ⟨⟨?_, ?_⟩, ?_, ?_, ?_⟩
  · simp only [get_file_metadata]
    rw [h]
  · simp only [modify_file_metadata]
    rw [h]
  · exact get_unsupported _ b (by decide) (by decide) (by decide)
  · exact get_unsupported _ b (by decide) (by decide) (by decide)
  · exact get_word _ d (by decide)

/-- Witness for C9 at two filenames sharing the extension .txt. -/
theorem detection_depends_only_on_splitext_witness :
    (get_file_metadata "a.txt" (.garbage [1] "g") =
       get_file_metadata "b.txt" (.garbage [1] "g") ∧
     modify_file_metadata "a.txt" (.garbage [1] "g") none none =
       modify_file_metadata "b.txt" (.garbage [1] "g") none none) ∧
    get_file_metadata ".docx" (.garbage [1] "g") =
      .error ⟨500, "Failed to read metadata: 400: Unsupported file type."⟩ ∧
    get_file_metadata "archive.docx.bak" (.garbage [1] "g") =
      .error ⟨500, "Failed to read metadata: 400: Unsupported file type."⟩ ∧
    get_file_metadata "archive.bak.docx" (.wordBytes ⟨some "A", some "B", []⟩) =
      .ok ⟨"A", "B"⟩ :=
  detection_depends_only_on_splitext "a.txt" "b.txt" (.garbage [1] "g")
    none none ⟨some "A", some "B", []⟩ (by decide)

/-- C10: the text-extraction helper is a total function — every uploaded file
yields a string — and on any decoding exception of the PDF or docx path it
returns the placeholder "[Error: Could not read content from file
(filename)]" with a trailing newline rather than failing; a filename matching
neither suffix takes the lossy utf-8 decode, which never raises. -/
theorem extract_text_total_with_placeholder (f : UploadFile) :
    (endswith (orEmpty f.filename) ".pdf" = true →
      ∀ e, f.pdfPages = .error e →
        extract_text_from_file f = errorPlaceholder (orEmpty f.filename)) ∧
    (endswith (orEmpty f.filename) ".pdf" = false →
      endswith (orEmpty f.filename) ".docx" = true →
      ∀ e, f.docxParagraphs = .error e →
        extract_text_from_file f = errorPlaceholder (orEmpty f.filename)) ∧
    (endswith (orEmpty f.filename) ".pdf" = false →
      endswith (orEmpty f.filename) ".docx" = false →
      extract_text_from_file f = f.utf8Lossy) := by
  refine ⟨?_, ?_, ?_⟩
  · intro hp e he
    simp [extract_text_from_file, hp, he]
  · intro hp hd e he
    simp [extract_text_from_file, hp, hd, he]
  · intro hp hd
    simp [extract_text_from_file, hp, hd]

/-- Witness for C10 at an unreadable PDF upload. -/
theorem extract_text_total_with_placeholder_witness :
    extract_text_from_file
      ⟨some "scan.pdf", .error "EOF marker not found", .ok [], ""⟩ =
      errorPlaceholder "scan.pdf" :=
  (extract_text_total_with_placeholder
      ⟨some "scan.pdf", .error "EOF marker not found", .ok [], ""⟩).1
    (by decide) "EOF marker not found" rfl

end AssignmentChecker
